import Mathlib

/-!
Verification development for the academic-assistant RAG application.

The Python sources are shallowly embedded: document text is modelled as
`List Char` (Python strings indexed by characters), dictionaries with a fixed
key schema become structures with `Option` fields (a `none` field models an
absent key), Python exceptions become `Except String` results, and the
external collaborators (PDF loader, recursive text splitter, embedding store,
LLM generation backend) are abstracted as function parameters, since their
implementations live outside this repository.
-/

/-- Document text, modelled at the character level (Python `str`). -/
abbrev Txt := List Char

/-- Python `sep.join(xs)`. -/
def pyJoin (sep : Txt) : List Txt → Txt
  | [] => []
  | [x] => x
  | x :: y :: rest => x ++ sep ++ pyJoin sep (y :: rest)

/-- Python `s.strip()`: remove leading and trailing whitespace. -/
def pyStrip (s : Txt) : Txt :=
  ((s.dropWhile Char.isWhitespace).reverse.dropWhile Char.isWhitespace).reverse

/-- Python `s.split(sep)` for a single-character separator `sep`
(consecutive separators produce empty fields, as in Python). -/
def pySplitChar (sep : Char) (s : Txt) : List Txt :=
  s.splitOnP (· == sep)

/-- Truthiness of an optional string value in a Python dict
(`if value:` — present and non-empty). -/
def truthyStr (o : Option String) : Bool :=
  match o with
  | none => false
  | some s => s != ""

/-- Truthiness of an optional integer value in a Python dict
(`if value:` — present and non-zero). -/
def truthyInt (o : Option Int) : Bool :=
  match o with
  | none => false
  | some y => y != 0

/-- Python `str(x)` for an optional string, printing `None` when absent
(used inside f-strings). -/
def pyShowOptStr (o : Option String) : String :=
  match o with
  | none => "None"
  | some s => s

/-- Python `str(x)` for an optional integer, printing `None` when absent. -/
def pyShowOptInt (o : Option Int) : String :=
  match o with
  | none => "None"
  | some y => toString y

/-- Chunk/page metadata dictionary: the fixed key schema used by the
pipeline (`source_file`, `page`, `chunk_index`, `author`, `year`, `title`).
A `none` field models an absent key. -/
structure Meta where
  sourceFile : Option String := none
  page : Option Int := none
  chunkIndex : Option Nat := none
  author : Option String := none
  year : Option Int := none
  title : Option String := none
deriving DecidableEq, Repr

/-- The empty metadata dict `{}`. -/
def Meta.empty : Meta := {}

/-- A LangChain `Document`: page content plus metadata. -/
structure Doc where
  pageContent : Txt
  metadata : Meta := {}
deriving DecidableEq, Repr

/-! ## `src/document_processor.py` -/

/-- The message of the `AttributeError` raised by
`DocumentProcessor.clean_text`: its first statement is
`text = re.sun(r' +', ' ', text)`, and the `re` module has no attribute
`sun` (the intended function was `re.sub`), so the attribute access raises
before any substitution is performed. -/
def reSunMsg : String := "module \x27re\x27 has no attribute \x27sun\x27"

/-- `DocumentProcessor.clean_text`.  Its first statement accesses the
non-existent `re.sun`, so every call raises `AttributeError` (message
`reSunMsg`) regardless of the input text. -/
def cleanText (_text : Txt) : Except String Txt :=
  .error reSunMsg

/-- Result dictionary of `DocumentProcessor.extract_metadata`
(keys `total_pages`, `source_file`, `possible_title`, plus the
`author`/`year`/`title` keys merged in later by the app layer). -/
structure ExtractedMeta where
  totalPages : Option Nat := none
  sourceFile : Option String := none
  possibleTitle : Option Txt := none
  author : Option String := none
  year : Option Int := none
  title : Option String := none
deriving DecidableEq, Repr

/-- The empty metadata dict `{}` returned for an empty document list. -/
def ExtractedMeta.empty : ExtractedMeta := {}

/-- `DocumentProcessor.extract_metadata`: page count, source file name, and
the heuristic title guess (first line among the first ten lines of the first
page that is longer than 20 characters and non-blank after stripping). -/
def extractMetadata (documents : List Doc) : ExtractedMeta :=
  match documents with
  | [] => {}
  | d0 :: _ =>
    let lines := pySplitChar '\n' d0.pageContent
    let titleLine := (lines.take 10).find? (fun l => decide (20 < l.length) && !(pyStrip l).isEmpty)
    { totalPages := some documents.length
      sourceFile := some (d0.metadata.sourceFile.getD "desconhecido")
      possibleTitle := titleLine.map pyStrip }

/-- The `for i, chunk in enumerate(chunks): chunk.metadata["chunk_index"] = i`
loop at the end of `DocumentProcessor.split_documents`. -/
def assignChunkIndices (chunks : List Doc) : List Doc :=
  chunks.enum.map (fun p => { p.2 with metadata := { p.2.metadata with chunkIndex := some p.1 } })

/-- The `for doc in documents` cleaning loop of
`DocumentProcessor.split_documents`: each page is passed through
`cleanText`, whose `AttributeError` propagates out of the loop. -/
def cleanDocsLoop : List Doc → Except String (List Doc)
  | [] => .ok []
  | d :: rest => do
    let c ← cleanText d.pageContent
    let others ← cleanDocsLoop rest
    pure ({ pageContent := c, metadata := d.metadata } :: others)

/-- `DocumentProcessor.split_documents`.  `splitLib` abstracts the external
`RecursiveCharacterTextSplitter.split_documents` (a LangChain library call);
the cleaning loop runs first, then the split result gets dense chunk
indices. -/
def splitDocuments (splitLib : List Doc → List Doc) (documents : List Doc) :
    Except String (List Doc) := do
  let cleaned ← cleanDocsLoop documents
  pure (assignChunkIndices (splitLib cleaned))

/-- The `try/except` body of `DocumentProcessor._load_from_path`: any
exception from the loader — including the `ValueError` it itself raises on an
empty document list — is re-raised as
`ValueError("Erro ao processar PDF:" + str(e))`. -/
def wrapLoaderResult (r : Except String (List Doc)) : Except String (List Doc) :=
  match r with
  | .error e => .error ("Erro ao processar PDF:" ++ e)
  | .ok docs =>
    if docs.isEmpty then .error ("Erro ao processar PDF:" ++ "PDF vazio ou não legivel")
    else .ok docs

/-- The `pdf_source` argument of `DocumentProcessor.load_pdf`: raw bytes, a
file-like object with `.read()` (both carrying an opaque byte blob `β`), a
filesystem path, or an unsupported value (identified by its type name). -/
inductive PdfSource (β : Type) where
  | bytes (b : β)
  | fileObj (b : β)
  | path (p : String)
  | unsupported (typeName : String)

/-- The `doc.metadata["source_file"] = filename` loop of
`DocumentProcessor._load_from_bytes`. -/
def setSourceFile (filename : String) (docs : List Doc) : List Doc :=
  docs.map (fun d => { d with metadata := { d.metadata with sourceFile := some filename } })

/-- `DocumentProcessor.load_pdf`.  `loadBytes` abstracts loading the
temporary file written from a byte blob, `loadPath` abstracts
`PyPDFLoader(path).load()`, and `pathExists` abstracts `os.path.exists`. -/
def loadPdf {β : Type} (loadBytes : β → Except String (List Doc))
    (loadPath : String → Except String (List Doc)) (pathExists : String → Bool)
    (pdfSource : PdfSource β) (filename : String) : Except String (List Doc) :=
  match pdfSource with
  | .bytes b => (wrapLoaderResult (loadBytes b)).map (setSourceFile filename)
  | .fileObj b => (wrapLoaderResult (loadBytes b)).map (setSourceFile filename)
  | .path p =>
    if pathExists p then wrapLoaderResult (loadPath p)
    else .error ("Arquivo não encontrado: " ++ p)
  | .unsupported t => .error ("Tipo de entrada não suportada: " ++ t)

/-- Statistics dictionary of `DocumentProcessor.process_pdf`. -/
structure ProcStats where
  totalPages : Nat
  totalChunks : Nat
  avgChunkSize : ℚ
deriving DecidableEq, Repr

/-- Result dictionary of `DocumentProcessor.process_pdf`.  A `none` in
`stats` models the empty dict `{}` returned on failure. -/
structure ProcessResult where
  documents : List Doc
  metadata : ExtractedMeta
  stats : Option ProcStats
  success : Bool
  error : Option String
deriving DecidableEq, Repr

/-- `DocumentProcessor.process_pdf`: load, extract metadata, split, compute
stats; the whole pipeline body sits in a `try/except Exception` that turns
any raised exception into a structured failure result. -/
def processPdf {β : Type} (loadBytes : β → Except String (List Doc))
    (loadPath : String → Except String (List Doc)) (pathExists : String → Bool)
    (splitLib : List Doc → List Doc)
    (pdfSource : PdfSource β) (filename : String) : ProcessResult :=
  let pipeline : Except String (List Doc × ExtractedMeta × List Doc) := do
    let raw ← loadPdf loadBytes loadPath pathExists pdfSource filename
    let metadata := extractMetadata raw
    let chunks ← splitDocuments splitLib raw
    pure (raw, metadata, chunks)
  match pipeline with
  | .ok (raw, metadata, chunks) =>
    { documents := chunks
      metadata := metadata
      stats := some
        { totalPages := raw.length
          totalChunks := chunks.length
          avgChunkSize :=
            if chunks.isEmpty then 0
            else ((chunks.map (fun c => c.pageContent.length)).sum : ℚ) / (chunks.length : ℚ) }
      success := true
      error := none }
  | .error e =>
    { documents := [], metadata := {}, stats := none, success := false, error := some e }

/-! ## `app.py` — the process-button handler -/

/-- Per-file manual metadata overrides collected by the upload form
(`st.session_state.manual_metadata[filename]`). -/
structure Overrides where
  author : Option String := none
  year : Option Int := none
  title : Option String := none
deriving DecidableEq, Repr

/-- The `for key in ["author", "year", "title"]: if value := manual_meta.get(key):
result["metadata"][key] = value` loop (runs whether or not processing
succeeded). -/
def mergeOverridesIntoMeta (o : Overrides) (m : ExtractedMeta) : ExtractedMeta :=
  { m with
    author := if truthyStr o.author then o.author else m.author
    year := if truthyInt o.year then o.year else m.year
    title := if truthyStr o.title then o.title else m.title }

/-- `chunk.metadata |= updates`, where `updates` keeps only the truthy
`author`/`year`/`title` entries of the manual metadata dict. -/
def mergeOverridesIntoChunk (o : Overrides) (c : Doc) : Doc :=
  { c with metadata := { c.metadata with
      author := if truthyStr o.author then o.author else c.metadata.author
      year := if truthyInt o.year then o.year else c.metadata.year
      title := if truthyStr o.title then o.title else c.metadata.title } }

/-- The statements that follow the processing loop in the button handler:
merge the manual metadata into `result["metadata"]`, and, when the result is
successful, into each chunk's metadata. -/
def applyOverridesToResult (o : Overrides) (r : ProcessResult) : ProcessResult :=
  let r1 := { r with metadata := mergeOverridesIntoMeta o r.metadata }
  if r1.success then { r1 with documents := r1.documents.map (mergeOverridesIntoChunk o) }
  else r1

/-- The `st.button("📊 Processar Documentos")` handler body, abstracted over
the per-file processing outcome: the `for uploaded_file in uploaded_files`
loop appends each `process_pdf` result to `all_results`, and the
metadata-merge statements are indented OUTSIDE that loop, so after the loop
they run exactly once, on the loop variables' final values — the LAST
uploaded file and its result. -/
def processUploadedFiles (manualMetadata : String → Overrides) :
    List (String × ProcessResult) → List ProcessResult
  | [] => []
  | [(name, r)] => [applyOverridesToResult (manualMetadata name) r]
  | f :: rest => f.2 :: processUploadedFiles manualMetadata rest

/-! ## `src/rag_engine.py` -/

/-- `RETRIEVAL_CONFIG["k"]` from `config.py`. -/
def retrievalK : Nat := 5

/-- The ChromaDB metadata filter dict built by `query_with_filters`
(exact-equality constraints on `author` and/or `year`). -/
structure FilterDict where
  author : Option String := none
  year : Option Int := none
deriving DecidableEq, Repr

/-- `filter_dict = {}` plus the two `if author:` / `if year:` insertions. -/
def buildFilterDict (author : Option String) (year : Option Int) : FilterDict :=
  { author := if truthyStr author then author else none
    year := if truthyInt year then year else none }

/-- The per-chunk content truncation in `RAGEngine.format_documents`:
`content = doc.page_content[:1000]`, with `"..."` appended when the
content was longer than the cap. -/
def truncateChunkContent (content : Txt) : Txt :=
  let c := content.take 1000
  if 1000 < content.length then c ++ "...".data else c

/-- `meta.get("page", "?")` rendered into the citation header. -/
def pyShowPage (o : Option Int) : String :=
  match o with
  | none => "?"
  | some p => toString p

/-- `meta.get("chunk_index", "?")` rendered into the citation header. -/
def pyShowChunkIndex (o : Option Nat) : String :=
  match o with
  | none => "?"
  | some i => toString i

/-- One formatted block of `RAGEngine.format_documents`: the citation header
followed by the (truncated) chunk content. -/
def docBlock (d : Doc) : Txt :=
  ("**[" ++ d.metadata.sourceFile.getD "desconhecido" ++ " - p."
    ++ pyShowPage d.metadata.page ++ " - chunk "
    ++ pyShowChunkIndex d.metadata.chunkIndex ++ "]**" ++ "\n").data
  ++ truncateChunkContent d.pageContent

/-- The separator `"\n\n---\n\n"` used to join formatted blocks. -/
def ctxSep : Txt := "\n\n---\n\n".data

/-- `RAGEngine.format_documents`.  The Python loop appends one block per
retrieved document, in order, then joins them; the `enumerate` index is not
used in the block text.  No deduplication of any kind is performed. -/
def formatDocuments (docs : List Doc) : Txt :=
  pyJoin ctxSep (docs.map docBlock)

/-- The answer returned by `query_with_filters` when the (filtered) search
returns no documents; `None` values are printed as Python prints them. -/
def noMatchAnswer (author : Option String) (year : Option Int) : String :=
  "Não encontrei documentos correspondentes aos filtros especificados (autor: "
    ++ pyShowOptStr author ++ ", ano: " ++ pyShowOptInt year ++ ")."

/-- Result dictionary of `RAGEngine.query_with_filters` (the static
`model`/`embedding_model` metadata entries are configuration constants and
are not modelled).  `sources` is `none` when the `"sources"` key is absent. -/
structure QWFResult where
  answer : String
  sources : Option (List Doc)
  chunksRetrieved : Nat
  filtersApplied : FilterDict
deriving DecidableEq, Repr

/-- `RAGEngine.query_with_filters`.  `search` abstracts
`vectorstore.similarity_search(query, k, filter)`, `retrieverInvoke` the
(possibly uninitialized) `self._retriever`, and `gen` the
`prompt | llm | StrOutputParser` chain invoked on (context, question).
The returned `Nat` counts generation-chain invocations.  Exceptions
(`ValueError` on a missing vectorstore, errors raised by the chain)
propagate to the caller as `.error`. -/
def queryWithFilters (hasVectorstore : Bool)
    (search : String → Nat → FilterDict → List Doc)
    (retrieverInvoke : Option (String → List Doc))
    (gen : Txt → String → Except String String)
    (question : String) (author : Option String) (year : Option Int)
    (returnSources : Bool) : Except String (QWFResult × Nat) :=
  if hasVectorstore = false then .error "Vectorstore não inicializado"
  else
    let filterDict := buildFilterDict author year
    let retrieved? : Except String (List Doc) :=
      if truthyStr author || truthyInt year then
        .ok (search question retrievalK filterDict)
      else
        match retrieverInvoke with
        | some r => .ok (r question)
        | none => .error "\x27NoneType\x27 object has no attribute \x27invoke\x27"
    match retrieved? with
    | .error e => .error e
    | .ok retrieved =>
      if retrieved.isEmpty then
        .ok ({ answer := noMatchAnswer author year
               sources := some []
               chunksRetrieved := 0
               filtersApplied := filterDict }, 0)
      else
        let context := formatDocuments retrieved
        match gen context question with
        | .error e => .error e
        | .ok answer =>
          .ok ({ answer := answer
                 sources := if returnSources then some retrieved else none
                 chunksRetrieved := retrieved.length
                 filtersApplied := filterDict }, 1)

/-! ## `src/synthesis.py` -/

/-- `"\n\n"`, the paragraph boundary / chunk-joining separator. -/
def parBoundary : Txt := "\n\n".data

/-- `pat` is an initial segment of `s` (Python `s.startswith(pat)` /
substring occurrence at a given offset). -/
def leadsWith : Txt → Txt → Bool
  | [], _ => true
  | _ :: _, [] => false
  | a :: as, b :: bs => a == b && leadsWith as bs

/-- Search step of Python `hay.rfind(needle)`: the greatest index `j ≤ i`
at which `needle` occurs in `hay`, or `-1` if there is none. -/
def pyRfindFrom (needle hay : Txt) : Nat → Int
  | 0 => if leadsWith needle hay then 0 else -1
  | i + 1 =>
    if leadsWith needle (hay.drop (i + 1)) then ((i + 1 : Nat) : Int)
    else pyRfindFrom needle hay i

/-- Python `hay.rfind(needle)`: greatest occurrence index, `-1` if absent. -/
def pyRfind (needle hay : Txt) : Int :=
  pyRfindFrom needle hay hay.length

/-- The suffix appended when truncation cuts at a paragraph boundary. -/
def truncMarkerPar : Txt := ("\n\n" ++ "[...texto truncado...]").data

/-- The suffix appended when truncation cuts hard at the budget. -/
def truncMarkerHard : Txt := ("\n" ++ "[...texto truncado...]").data

/-- `PaperSynthesizer._truncate_text`.  The Python guard
`last_paragraph > max_chars * 0.8` compares an integer with the float
`0.8 * max_chars`; for the budgets the program uses (default 8000, call site
10000) the float product is exactly `0.8 * max_chars`, so the guard is
modelled as the exact comparison `5 * last_paragraph > 4 * max_chars`. -/
def truncateText (maxChars : Nat) (text : Txt) : Txt :=
  if text.length ≤ maxChars then text
  else
    let truncated := text.take maxChars
    let lastParagraph := pyRfind parBoundary truncated
    if 4 * (maxChars : Int) < 5 * lastParagraph then
      truncated.take lastParagraph.toNat ++ truncMarkerPar
    else
      truncated ++ truncMarkerHard

/-- `len(summary.split())`: the number of maximal whitespace-free runs. -/
def pyWordCount (s : Txt) : Nat :=
  ((s.splitOnP (fun c => c.isWhitespace)).filter (fun w => !w.isEmpty)).length

/-- The four keys of the `focus_prompts` dict in
`PaperSynthesizer.summarize_single_paper`. -/
def focusKeys : List String := ["metodologia", "resultados", "limitacoes", "completo"]

/-- `focus_prompts.get(focus, focus_prompts["completo"])`, identified by its
key (the prompt templates themselves are fixed text surrounding the `text`
slot). -/
def templateKeyOf (focus : String) : String :=
  if focus ∈ focusKeys then focus else "completo"

/-- The dictionary returned by `PaperSynthesizer.summarize_single_paper`.
The empty-input branch omits the `word_count` key; consumers read it back
with `.get("word_count", 0)`, so that branch is modelled with
`wordCount = 0`. -/
structure PaperSummary where
  summary : Txt
  metadata : Meta
  focus : String
  success : Bool
  error : Option String
  wordCount : Nat
deriving DecidableEq, Repr

/-- `PaperSynthesizer.summarize_single_paper`.  `gen` abstracts the
`prompt | llm` chain: it receives the selected template key and the
(truncated) document text substituted into the template's `text` slot.  The
returned list logs the generation invocations made (template key and
substituted text), in order. -/
def summarizeSinglePaper (gen : String → Txt → Except String Txt)
    (documents : List Doc) (focus : String) : PaperSummary × List (String × Txt) :=
  if documents.isEmpty then
    ({ summary := [], metadata := {}, focus := focus, success := false
       error := some "Nenhum documento fornecido", wordCount := 0 }, [])
  else
    let fullText :=
      truncateText 10000 (pyJoin parBoundary (documents.map (fun d => d.pageContent)))
    let metadata := ((documents.head?).map (fun d => d.metadata)).getD {}
    match gen (templateKeyOf focus) fullText with
    | .ok summary =>
      ({ summary := summary, metadata := metadata, focus := focus, success := true
         error := none, wordCount := pyWordCount summary },
       [(templateKeyOf focus, fullText)])
    | .error e =>
      ({ summary := [], metadata := metadata, focus := focus, success := false
         error := some e, wordCount := 0 },
       [(templateKeyOf focus, fullText)])

/-- Diagnostic for `compare_papers` called with no summaries at all. -/
def diagNoSummaries : Txt := "⚠️ Nenhum resumo disponível para comparação.".data

/-- Diagnostic for `compare_papers` when no summary succeeded. -/
def diagNoValid : Txt := "⚠️ Nenhum resumo válido para comparação.".data

/-- Diagnostic for `compare_papers` with fewer than 2 successful summaries. -/
def diagNeedTwo : Txt := "⚠️ Necessário pelo menos 2 papers para comparação.".data

/-- Python `focus.title()` (uppercase the first character of each run of
alphabetic characters, lowercase the rest). -/
def pyTitleAux : Bool → Txt → Txt
  | _, [] => []
  | prevAlpha, c :: cs =>
    (if prevAlpha then c.toLower else c.toUpper) :: pyTitleAux c.isAlpha cs

/-- Python `focus.title()` on a string. -/
def pyTitleCase (s : String) : String :=
  ⟨pyTitleAux false s.data⟩

/-- `focus_titles.get(comparison_focus, comparison_focus.title())`. -/
def focusTitleOf (focus : String) : String :=
  if focus = "metodologia" then "Metodologias"
  else if focus = "resultados" then "Resultados"
  else if focus = "limitacoes" then "Limitações"
  else if focus = "completo" then "Aspectos Gerais"
  else pyTitleCase focus

/-- `meta.get("year", "Ano desconhecido")` rendered into a paper block. -/
def pyShowYearDefault (o : Option Int) : String :=
  match o with
  | none => "Ano desconhecido"
  | some y => toString y

/-- One enumerated block of the `summaries_text` accumulator in
`compare_papers` (`i` counts from 1). -/
def paperBlock (i : Nat) (s : PaperSummary) : Txt :=
  ("\n\n### Paper " ++ toString i ++ ": "
    ++ s.metadata.author.getD "Autor desconhecido" ++ " ("
    ++ pyShowYearDefault s.metadata.year ++ ")\n**Fonte:** "
    ++ s.metadata.sourceFile.getD "Documento" ++ "\n\n").data
  ++ s.summary

/-- The `summaries_text` accumulation loop of `compare_papers`:
`for i, summary in enumerate(valid_summaries, 1)`. -/
def summariesTextFrom (i : Nat) : List PaperSummary → Txt
  | [] => []
  | s :: rest => paperBlock i s ++ summariesTextFrom (i + 1) rest

/-- The `comparison_prompt` f-string of `compare_papers` (a triple-quoted
literal whose lines are indented by 12 spaces in the source). -/
def comparisonPrompt (valid : List PaperSummary) (comparisonFocus : String) : Txt :=
  ("\n            Compare estes " ++ toString valid.length ++ " papers sobre "
    ++ focusTitleOf comparisonFocus ++ ":\n\n            ").data
  ++ summariesTextFrom 1 valid
  ++ ("\n\n            Destaque: semelhanças, diferenças e lacunas de pesquisa.\n            Máximo 250 palavras. Formato Markdown.\n            ").data

/-- `PaperSynthesizer.compare_papers` (the REDUCE step).  `genReduce`
abstracts the comparison `prompt | llm` chain; the returned list logs the
prompts it was invoked on. -/
def comparePapers (genReduce : Txt → Except String Txt)
    (summaries : List PaperSummary) (comparisonFocus : String) : Txt × List Txt :=
  if summaries.isEmpty then (diagNoSummaries, [])
  else
    let valid := summaries.filter (fun s => s.success)
    if valid.isEmpty then (diagNoValid, [])
    else if valid.length < 2 then (diagNeedTwo, [])
    else
      let prompt := comparisonPrompt valid comparisonFocus
      match genReduce prompt with
      | .ok synthesis => (synthesis, [prompt])
      | .error e => (("❌ **Erro ao gerar comparação:** " ++ e).data, [prompt])

/-- The dictionary returned by `generate_literature_review`
(`duration_seconds` and `generated_at` are wall-clock readings and are not
modelled; `individualSummaries = none` models an absent key). -/
structure LitReview where
  comparativeSynthesis : Txt
  totalPapers : Nat
  successfulAnalyses : Nat
  focus : String
  totalWords : Nat
  individualSummaries : Option (List PaperSummary)
deriving DecidableEq, Repr

/-- `PaperSynthesizer.generate_literature_review` (full map-reduce).
`papersDocuments` models the `{paper_name: chunks}` dict as an
insertion-ordered association list, matching Python dict iteration order.
The second component collects the MAP-phase and REDUCE-phase generation
logs. -/
def generateLiteratureReview (genMap : String → Txt → Except String Txt)
    (genReduce : Txt → Except String Txt)
    (papersDocuments : List (String × List Doc)) (focus : String)
    (includeIndividual : Bool) : LitReview × (List (String × Txt) × List Txt) :=
  let mapped := papersDocuments.map (fun p => summarizeSinglePaper genMap p.2 focus)
  let summaries := mapped.map (fun p => p.1)
  let mapLog := (mapped.map (fun p => p.2)).flatten
  let successful := (summaries.filter (fun s => s.success)).length
  let reduced := comparePapers genReduce summaries focus
  let totalWords := ((summaries.filter (fun s => s.success)).map (fun s => s.wordCount)).sum
  ({ comparativeSynthesis := reduced.1
     totalPapers := papersDocuments.length
     successfulAnalyses := successful
     focus := focus
     totalWords := totalWords
     individualSummaries := if includeIndividual then some summaries else none },
   (mapLog, reduced.2))

/-! ## Helper notions and lemmas -/

/-- `pat` occurs as a contiguous segment of `s`. -/
def containsSeg (pat s : Txt) : Prop :=
  ∃ u v, s = u ++ pat ++ v

/-- The number of positions at which `needle` occurs in `hay`. -/
def countOccur (needle hay : Txt) : Nat :=
  ((List.range (hay.length + 1)).filter (fun i => leadsWith needle (hay.drop i))).length

theorem str_append_ne_empty (s t : String) (h : s.data ≠ []) : s ++ t ≠ "" := by
  intro he
  apply h
  have hd := congrArg String.data he
  rw [String.data_append] at hd
  exact (List.append_eq_nil.mp hd).1

theorem exceptBindError {α β : Type} (e : String) (f : α → Except String β) :
    (Except.error e : Except String α) >>= f = .error e := rfl

theorem exceptBindOk {α β : Type} (a : α) (f : α → Except String β) :
    (Except.ok a : Except String α) >>= f = f a := rfl

theorem exceptMapError {α β : Type} (f : α → β) (e : String) :
    Except.map f (Except.error e : Except String α) = .error e := rfl

theorem exceptMapOk {α β : Type} (f : α → β) (a : α) :
    Except.map f (Except.ok a : Except String α) = .ok (f a) := rfl

theorem wrapLoaderResult_error_ne_empty (r : Except String (List Doc)) (e : String)
    (h : wrapLoaderResult r = .error e) : e ≠ "" := by
  cases r with
  | error e0 =>
    have h2 : (Except.error ("Erro ao processar PDF:" ++ e0) : Except String (List Doc))
        = .error e := h
    cases h2
    exact str_append_ne_empty _ _ (by decide)
  | ok docs =>
    cases docs with
    | nil =>
      have h2 : (Except.error ("Erro ao processar PDF:" ++ "PDF vazio ou não legivel") :
          Except String (List Doc)) = .error e := h
      cases h2
      exact str_append_ne_empty _ _ (by decide)
    | cons d ds =>
      have h2 : (Except.ok (d :: ds) : Except String (List Doc)) = .error e := h
      exact Except.noConfusion h2

theorem loadPdf_error_ne_empty {β : Type} (loadBytes : β → Except String (List Doc))
    (loadPath : String → Except String (List Doc)) (pathExists : String → Bool)
    (pdfSource : PdfSource β) (filename : String) (e : String)
    (h : loadPdf loadBytes loadPath pathExists pdfSource filename = .error e) : e ≠ "" := by
  cases pdfSource with
  | bytes b =>
    simp only [loadPdf] at h
    cases hw : wrapLoaderResult (loadBytes b) with
    | error e0 =>
      rw [hw, exceptMapError] at h
      cases h
      exact wrapLoaderResult_error_ne_empty _ _ hw
    | ok docs =>
      rw [hw, exceptMapOk] at h
      exact Except.noConfusion h
  | fileObj b =>
    simp only [loadPdf] at h
    cases hw : wrapLoaderResult (loadBytes b) with
    | error e0 =>
      rw [hw, exceptMapError] at h
      cases h
      exact wrapLoaderResult_error_ne_empty _ _ hw
    | ok docs =>
      rw [hw, exceptMapOk] at h
      exact Except.noConfusion h
  | path p =>
    simp only [loadPdf] at h
    cases hp : pathExists p
    · rw [hp] at h
      simp only [Bool.false_eq_true, if_false, Except.error.injEq] at h
      exact h ▸ str_append_ne_empty _ _ (by decide)
    · rw [hp] at h
      simp only [if_true] at h
      exact wrapLoaderResult_error_ne_empty _ _ h
  | unsupported t =>
    simp only [loadPdf, Except.error.injEq] at h
    exact h ▸ str_append_ne_empty _ _ (by decide)

theorem cleanDocsLoop_error (docs : List Doc) (e : String)
    (h : cleanDocsLoop docs = .error e) : e = reSunMsg := by
  cases docs with
  | nil =>
    exact Except.noConfusion
      (show (Except.ok ([] : List Doc) : Except String (List Doc)) = .error e from h)
  | cons d rest =>
    have h2 : (Except.error reSunMsg : Except String (List Doc)) = .error e := h
    cases h2
    rfl

theorem splitDocuments_error (splitLib : List Doc → List Doc) (docs : List Doc) (e : String)
    (h : splitDocuments splitLib docs = .error e) : e = reSunMsg := by
  unfold splitDocuments at h
  cases hc : cleanDocsLoop docs with
  | error e0 =>
    rw [hc, exceptBindError] at h
    cases h
    exact cleanDocsLoop_error _ _ hc
  | ok cleaned =>
    rw [hc, exceptBindOk] at h
    exact Except.noConfusion h

/-! ## Claims -/

/-- C1: for every input (pdf source, filename) and every behaviour of the
external loader/splitter collaborators, `process_pdf` returns a structured
result (its totality as a Lean function models "never raises to the
caller"): on `success = false` the error message is present and non-empty
and the documents, stats and metadata are empty; on `success = true` the
error is `None` and the stats dict is filled. -/
theorem c1_process_pdf_structured_failure {β : Type}
    (loadBytes : β → Except String (List Doc))
    (loadPath : String → Except String (List Doc)) (pathExists : String → Bool)
    (splitLib : List Doc → List Doc) (pdfSource : PdfSource β) (filename : String) :
    if (processPdf loadBytes loadPath pathExists splitLib pdfSource filename).success then
      (processPdf loadBytes loadPath pathExists splitLib pdfSource filename).error = none ∧
      (processPdf loadBytes loadPath pathExists splitLib pdfSource filename).stats.isSome = true
    else
      (processPdf loadBytes loadPath pathExists splitLib pdfSource filename).documents = [] ∧
      (processPdf loadBytes loadPath pathExists splitLib pdfSource filename).stats = none ∧
      (processPdf loadBytes loadPath pathExists splitLib pdfSource filename).metadata
        = ExtractedMeta.empty ∧
      ∃ msg, (processPdf loadBytes loadPath pathExists splitLib pdfSource filename).error
        = some msg ∧ msg ≠ "" := by
  cases hl : loadPdf loadBytes loadPath pathExists pdfSource filename with
  | error e =>
    have he := loadPdf_error_ne_empty loadBytes loadPath pathExists pdfSource filename e hl
    simp only [processPdf, hl, exceptBindError]
    exact ⟨by trivial, by trivial, by trivial, e, by trivial, he⟩
  | ok raw =>
    cases hs : splitDocuments splitLib raw with
    | error e =>
      have he : e ≠ "" := by
        rw [splitDocuments_error splitLib raw e hs]
        decide
      simp only [processPdf, hl, exceptBindOk, hs, exceptBindError]
      exact ⟨by trivial, by trivial, by trivial, e, by trivial, he⟩
    | ok chunks =>
      simp only [processPdf, hl, exceptBindOk, hs]
      exact ⟨by trivial, by trivial⟩

/-- C2: the text-normalization function `clean_text` is NOT total (and a
fortiori not idempotent): its first statement calls the non-existent
`re.sun`, so it raises `AttributeError` on every input string. -/
theorem c2_clean_text_always_raises (t : Txt) : cleanText t = .error reSunMsg := rfl

/-- A one-page document like the one the repository's own
`test_chunk_creation` builds. -/
def c3TestDoc : Doc :=
  { pageContent := "Teste. Teste. Teste. Teste.".data, metadata := { page := some 1 } }

/-- C3: `split_documents` never reaches the chunk-index assignment on a
non-empty document list: the cleaning loop calls `clean_text`, which raises
`AttributeError` (`reSunMsg`), whatever the library splitter would do. -/
theorem c3_split_documents_raises (splitLib : List Doc → List Doc) :
    splitDocuments splitLib [c3TestDoc] = .error reSunMsg := rfl

/-- Density of the chunk-index assignment loop itself (the code at lines
207–209 of `document_processor.py`, which the `clean_text` failure makes
unreachable for non-empty input): it labels whatever chunk list it is given
with exactly `0..N-1`, in order. -/
theorem assignChunkIndices_dense (chunks : List Doc) :
    (assignChunkIndices chunks).map (fun c => c.metadata.chunkIndex)
      = (List.range chunks.length).map some := by
  unfold assignChunkIndices
  rw [List.map_map,
    show List.range chunks.length = chunks.enum.map Prod.fst from (List.enum_map_fst chunks).symm,
    List.map_map]
  rfl

/-- C10: `summarize_single_paper` on an empty chunk list returns the failed
summary dict (empty summary, empty metadata dict, echoed focus,
`success=False`, the fixed error message, no `word_count` key — read back as
0) and performs no generation call (empty invocation log). -/
theorem c10_summarize_single_paper_empty
    (gen : String → Txt → Except String Txt) (focus : String) :
    summarizeSinglePaper gen [] focus
      = ({ summary := [], metadata := Meta.empty, focus := focus, success := false
           error := some "Nenhum documento fornecido", wordCount := 0 }, []) := rfl

/-- Two one-chunk processing results, as the app's processing loop would
hold after uploading `a.pdf` and `b.pdf`. -/
def c4ResultA : ProcessResult :=
  { documents := [{ pageContent := "conteudo do paper A".data }]
    metadata := { totalPages := some 1, sourceFile := some "a.pdf" }
    stats := some { totalPages := 1, totalChunks := 1, avgChunkSize := 19 }
    success := true, error := none }

/-- See `c4ResultA`. -/
def c4ResultB : ProcessResult :=
  { documents := [{ pageContent := "conteudo do paper B".data }]
    metadata := { totalPages := some 1, sourceFile := some "b.pdf" }
    stats := some { totalPages := 1, totalChunks := 1, avgChunkSize := 19 }
    success := true, error := none }

/-- Manual overrides typed into the upload form: author `Silva` for
`a.pdf`, author `Souza` for `b.pdf`. -/
def c4ManualMetadata : String → Overrides := fun n =>
  if n = "a.pdf" then { author := some "Silva" }
  else if n = "b.pdf" then { author := some "Souza" }
  else {}

/-- C4: in a two-file batch where each file has its own author override,
the merge step leaves the first document's chunks without ANY override
(despite `Silva` being supplied for it) and applies an override only to the
last file — the merge statements sit outside the per-file loop. -/
theorem c4_overrides_applied_only_to_last_file :
    (c4ManualMetadata "a.pdf").author = some "Silva" ∧
    (processUploadedFiles c4ManualMetadata [("a.pdf", c4ResultA), ("b.pdf", c4ResultB)]).map
        (fun r => r.documents.map (fun c => c.metadata.author))
      = [[none], [some "Souza"]] := by
  constructor
  · rfl
  · rfl

/-- C5: when a metadata filter (author and/or year) is supplied and the
filtered similarity search matches zero chunks, `query_with_filters`
returns a non-error result with an empty sources list and an answer that
explicitly says no matching documents were found, without invoking the
generation chain; this is distinct from the `ValueError` raised when no
vectorstore is initialized. -/
theorem c5_query_with_filters_zero_match
    (search : String → Nat → FilterDict → List Doc)
    (retrieverInvoke : Option (String → List Doc))
    (gen : Txt → String → Except String String)
    (question : String) (author : Option String) (year : Option Int) (returnSources : Bool)
    (hfilter : truthyStr author = true ∨ truthyInt year = true)
    (hempty : search question retrievalK (buildFilterDict author year) = []) :
    queryWithFilters true search retrieverInvoke gen question author year returnSources
      = .ok ({ answer := noMatchAnswer author year, sources := some []
               chunksRetrieved := 0, filtersApplied := buildFilterDict author year }, 0) ∧
    (∃ rest, noMatchAnswer author year
      = "Não encontrei documentos correspondentes aos filtros especificados (autor: " ++ rest) ∧
    queryWithFilters false search retrieverInvoke gen question author year returnSources
      = .error "Vectorstore não inicializado" := by
  have hcond : (truthyStr author || truthyInt year) = true := by
    rcases hfilter with h | h <;> simp [h]
  refine ⟨?_, ⟨pyShowOptStr author ++ (", ano: " ++ (pyShowOptInt year ++ ")." )), ?_⟩, rfl⟩
  · simp only [queryWithFilters, hcond, hempty, if_true, List.isEmpty_nil]
    simp
  · simp only [noMatchAnswer, String.append_assoc]

/-- Witness for C5: author filter `Silva`, no year filter, a search that
returns no chunks. -/
theorem c5_witness :
    queryWithFilters true (fun _ _ _ => []) none (fun _ _ => .ok "resposta") "pergunta"
        (some "Silva") none true
      = .ok ({ answer := noMatchAnswer (some "Silva") none, sources := some []
               chunksRetrieved := 0, filtersApplied := buildFilterDict (some "Silva") none }, 0) :=
  (c5_query_with_filters_zero_match (fun _ _ _ => []) none (fun _ _ => .ok "resposta")
    "pergunta" (some "Silva") none true (Or.inl (by decide)) rfl).1

theorem containsSeg_append_left (pat u s : Txt) (h : containsSeg pat s) :
    containsSeg pat (u ++ s) := by
  obtain ⟨a, b, hab⟩ := h
  exact ⟨u ++ a, b, by subst hab; simp [List.append_assoc]⟩

theorem containsSeg_append_right (pat s v : Txt) (h : containsSeg pat s) :
    containsSeg pat (s ++ v) := by
  obtain ⟨a, b, hab⟩ := h
  exact ⟨a, b ++ v, by rw [hab]; simp [List.append_assoc]⟩

theorem containsSeg_paperBlock (i : Nat) (s : PaperSummary) :
    containsSeg s.summary (paperBlock i s) :=
  ⟨("\n\n### Paper " ++ toString i ++ ": "
      ++ s.metadata.author.getD "Autor desconhecido" ++ " ("
      ++ pyShowYearDefault s.metadata.year ++ ")\n**Fonte:** "
      ++ s.metadata.sourceFile.getD "Documento" ++ "\n\n").data, [],
    by simp [paperBlock]⟩

theorem containsSeg_summariesTextFrom (s : PaperSummary) :
    ∀ (l : List PaperSummary) (i : Nat), s ∈ l →
      containsSeg s.summary (summariesTextFrom i l) := by
  intro l
  induction l with
  | nil => intro i h; cases h
  | cons hd tl ih =>
    intro i h
    rcases List.mem_cons.mp h with heq | htl
    · subst heq
      exact containsSeg_append_right _ _ _ (containsSeg_paperBlock i s)
    · exact containsSeg_append_left _ _ _ (ih (i + 1) htl)

theorem containsSeg_comparisonPrompt (s : PaperSummary) (valid : List PaperSummary)
    (comparisonFocus : String) (h : s ∈ valid) :
    containsSeg s.summary (comparisonPrompt valid comparisonFocus) := by
  unfold comparisonPrompt
  exact containsSeg_append_right _ _ _
    (containsSeg_append_left _ _ _ (containsSeg_summariesTextFrom s valid 1 h))

theorem comparePapers_eq (genReduce : Txt → Except String Txt)
    (summaries : List PaperSummary) (comparisonFocus : String) :
    comparePapers genReduce summaries comparisonFocus
      = if summaries.isEmpty then (diagNoSummaries, [])
        else if (summaries.filter (fun s => s.success)).isEmpty then (diagNoValid, [])
        else if (summaries.filter (fun s => s.success)).length < 2 then (diagNeedTwo, [])
        else
          match genReduce
              (comparisonPrompt (summaries.filter (fun s => s.success)) comparisonFocus) with
          | .ok synthesis =>
            (synthesis, [comparisonPrompt (summaries.filter (fun s => s.success)) comparisonFocus])
          | .error e =>
            (("❌ **Erro ao gerar comparação:** " ++ e).data,
             [comparisonPrompt (summaries.filter (fun s => s.success)) comparisonFocus]) := rfl

theorem comparePapers_guard (genReduce : Txt → Except String Txt)
    (summaries : List PaperSummary) (comparisonFocus : String) :
    ((summaries.filter (fun s => s.success)).length < 2 →
      (comparePapers genReduce summaries comparisonFocus).2 = [] ∧
      ((comparePapers genReduce summaries comparisonFocus).1 = diagNoSummaries ∨
       (comparePapers genReduce summaries comparisonFocus).1 = diagNoValid ∨
       (comparePapers genReduce summaries comparisonFocus).1 = diagNeedTwo)) ∧
    (2 ≤ (summaries.filter (fun s => s.success)).length →
      (comparePapers genReduce summaries comparisonFocus).2
        = [comparisonPrompt (summaries.filter (fun s => s.success)) comparisonFocus] ∧
      (comparePapers genReduce summaries comparisonFocus).1
        = (match genReduce
              (comparisonPrompt (summaries.filter (fun s => s.success)) comparisonFocus) with
           | .ok synthesis => synthesis
           | .error e => ("❌ **Erro ao gerar comparação:** " ++ e).data)) := by
  constructor
  · intro hlt
    by_cases h0 : summaries.isEmpty
    · simp [comparePapers_eq, h0]
    · by_cases h1 : (summaries.filter (fun s => s.success)).isEmpty
      · simp [comparePapers_eq, h0, h1]
      · simp [comparePapers_eq, h0, h1, hlt]
  · intro hge
    have h2 : ¬ (summaries.filter (fun s => s.success)).length < 2 := by omega
    have h1 : ¬ ((summaries.filter (fun s => s.success)).isEmpty = true) := by
      intro h
      rw [List.isEmpty_iff] at h
      rw [h] at hge
      simp at hge
    have h0 : ¬ (summaries.isEmpty = true) := by
      intro h
      rw [List.isEmpty_iff] at h
      subst h
      simp at h1
    rcases hg : genReduce
        (comparisonPrompt (summaries.filter (fun s => s.success)) comparisonFocus) with e | syn <;>
      simp [comparePapers_eq, h0, h1, h2, hg]

/-- C6: the REDUCE step `compare_papers` filters to successful summaries;
with fewer than 2 of them it returns one of the diagnostic messages without
invoking the generation chain (empty invocation log); with at least 2 it
invokes generation exactly once, on the single prompt that enumerates every
successful summary (each summary text occurs inside the prompt, with its
author/year/source header). -/
theorem c6_compare_papers_guard_and_single_call (genReduce : Txt → Except String Txt)
    (summaries : List PaperSummary) (comparisonFocus : String) :
    ((summaries.filter (fun s => s.success)).length < 2 →
      (comparePapers genReduce summaries comparisonFocus).2 = [] ∧
      ((comparePapers genReduce summaries comparisonFocus).1 = diagNoSummaries ∨
       (comparePapers genReduce summaries comparisonFocus).1 = diagNoValid ∨
       (comparePapers genReduce summaries comparisonFocus).1 = diagNeedTwo)) ∧
    (2 ≤ (summaries.filter (fun s => s.success)).length →
      (comparePapers genReduce summaries comparisonFocus).2
        = [comparisonPrompt (summaries.filter (fun s => s.success)) comparisonFocus] ∧
      ∀ s ∈ summaries.filter (fun s => s.success),
        containsSeg s.summary
          (comparisonPrompt (summaries.filter (fun s => s.success)) comparisonFocus)) := by
  obtain ⟨g1, g2⟩ := comparePapers_guard genReduce summaries comparisonFocus
  refine ⟨g1, fun hge => ⟨(g2 hge).1, fun s hs => ?_⟩⟩
  exact containsSeg_comparisonPrompt s _ _ hs

/-- A successful MAP summary for witnesses. -/
def sampleSummaryA : PaperSummary :=
  { summary := "resumo A".data
    metadata := { sourceFile := some "a.pdf", author := some "Silva", year := some 2020 }
    focus := "completo", success := true, error := none, wordCount := 2 }

/-- A second successful MAP summary for witnesses. -/
def sampleSummaryB : PaperSummary :=
  { summary := "resumo B".data
    metadata := { sourceFile := some "b.pdf", author := some "Souza", year := some 2021 }
    focus := "completo", success := true, error := none, wordCount := 2 }

/-- A failed MAP summary for witnesses. -/
def sampleSummaryFail : PaperSummary :=
  { summary := [], metadata := {}, focus := "completo", success := false
    error := some "Nenhum documento fornecido", wordCount := 0 }

/-- Witness for C6: one successful summary → no generation call; two
successful summaries → exactly one generation call, on the enumeration
prompt. -/
theorem c6_witness :
    (comparePapers (fun _ => .ok "sintese".data) [sampleSummaryFail, sampleSummaryA]
        "completo").2 = [] ∧
    (comparePapers (fun _ => .ok "sintese".data) [sampleSummaryA, sampleSummaryB]
        "completo").2
      = [comparisonPrompt [sampleSummaryA, sampleSummaryB] "completo"] :=
  ⟨((c6_compare_papers_guard_and_single_call (fun _ => .ok "sintese".data)
      [sampleSummaryFail, sampleSummaryA] "completo").1 (by decide)).1,
   ((c6_compare_papers_guard_and_single_call (fun _ => .ok "sintese".data)
      [sampleSummaryA, sampleSummaryB] "completo").2 (by decide)).1⟩

/-- The list of per-paper summaries produced by the MAP loop of
`generate_literature_review`, in input order. -/
def mapPhaseSummaries (genMap : String → Txt → Except String Txt)
    (papersDocuments : List (String × List Doc)) (focus : String) : List PaperSummary :=
  papersDocuments.map (fun p => (summarizeSinglePaper genMap p.2 focus).1)

theorem generateLiteratureReview_result (genMap : String → Txt → Except String Txt)
    (genReduce : Txt → Except String Txt) (papersDocuments : List (String × List Doc))
    (focus : String) (includeIndividual : Bool) :
    (generateLiteratureReview genMap genReduce papersDocuments focus includeIndividual).1
      = { comparativeSynthesis :=
            (comparePapers genReduce (mapPhaseSummaries genMap papersDocuments focus) focus).1
          totalPapers := papersDocuments.length
          successfulAnalyses :=
            ((mapPhaseSummaries genMap papersDocuments focus).filter
              (fun s => s.success)).length
          focus := focus
          totalWords :=
            (((mapPhaseSummaries genMap papersDocuments focus).filter
              (fun s => s.success)).map (fun s => s.wordCount)).sum
          individualSummaries :=
            if includeIndividual then some (mapPhaseSummaries genMap papersDocuments focus)
            else none } := by
  simp only [generateLiteratureReview, mapPhaseSummaries, List.map_map]
  rfl

/-- C7: the literature-review aggregate reports `total_papers` as the input
count, `successful_analyses` as the number of MAP summaries with
`success=True`, `total_words` as the word-count sum over successful
summaries only, the individual summaries (when requested) in original input
order, and a comparative synthesis that, with at least 2 successful
summaries, is generated from the prompt built from exactly the successful
summaries — otherwise one of the diagnostic messages. -/
theorem c7_generate_literature_review_aggregates (genMap : String → Txt → Except String Txt)
    (genReduce : Txt → Except String Txt) (papersDocuments : List (String × List Doc))
    (focus : String) (includeIndividual : Bool) :
    (generateLiteratureReview genMap genReduce papersDocuments focus
        includeIndividual).1.totalPapers = papersDocuments.length ∧
    (generateLiteratureReview genMap genReduce papersDocuments focus
        includeIndividual).1.successfulAnalyses
      = ((mapPhaseSummaries genMap papersDocuments focus).filter
          (fun s => s.success)).length ∧
    (generateLiteratureReview genMap genReduce papersDocuments focus
        includeIndividual).1.totalWords
      = (((mapPhaseSummaries genMap papersDocuments focus).filter
          (fun s => s.success)).map (fun s => s.wordCount)).sum ∧
    (generateLiteratureReview genMap genReduce papersDocuments focus
        includeIndividual).1.individualSummaries
      = (if includeIndividual then some (mapPhaseSummaries genMap papersDocuments focus)
         else none) ∧
    (if 2 ≤ ((mapPhaseSummaries genMap papersDocuments focus).filter
          (fun s => s.success)).length then
       (generateLiteratureReview genMap genReduce papersDocuments focus
           includeIndividual).1.comparativeSynthesis
         = (match genReduce
              (comparisonPrompt ((mapPhaseSummaries genMap papersDocuments focus).filter
                (fun s => s.success)) focus) with
            | .ok synthesis => synthesis
            | .error e => ("❌ **Erro ao gerar comparação:** " ++ e).data)
     else
       ((generateLiteratureReview genMap genReduce papersDocuments focus
           includeIndividual).1.comparativeSynthesis = diagNoSummaries ∨
        (generateLiteratureReview genMap genReduce papersDocuments focus
           includeIndividual).1.comparativeSynthesis = diagNoValid ∨
        (generateLiteratureReview genMap genReduce papersDocuments focus
           includeIndividual).1.comparativeSynthesis = diagNeedTwo)) := by
  rw [generateLiteratureReview_result]
  obtain ⟨g1, g2⟩ :=
    comparePapers_guard genReduce (mapPhaseSummaries genMap papersDocuments focus) focus
  refine ⟨rfl, rfl, rfl, rfl, ?_⟩
  by_cases h : 2 ≤ ((mapPhaseSummaries genMap papersDocuments focus).filter
      (fun s => s.success)).length
  · rw [if_pos h]
    exact (g2 h).2
  · rw [if_neg h]
    exact (g1 (by omega)).2

/-- A retrieved chunk used to exhibit duplicate formatting. -/
def c9Doc : Doc :=
  { pageContent := "x".data
    metadata := { sourceFile := some "s", page := some 1, chunkIndex := some 0 } }

/-- C9 counterexample: `format_documents` performs no deduplication — a
chunk list containing the same chunk twice (identical text, metadata and
chunk identity) produces a context in which that chunk's block occurs at
two positions, contradicting the claim that identical chunks appear at most
once. -/
theorem c9_counterexample_no_dedup :
    ¬ countOccur (docBlock c9Doc) (formatDocuments [c9Doc, c9Doc]) ≤ 1 := by decide

theorem containsSeg_refl (x : Txt) : containsSeg x x :=
  ⟨[], [], by simp⟩

theorem containsSeg_pyJoin (sep x : Txt) :
    ∀ (l : List Txt), x ∈ l → containsSeg x (pyJoin sep l) := by
  intro l
  induction l with
  | nil => intro h; cases h
  | cons hd tl ih =>
    intro h
    rcases List.mem_cons.mp h with heq | htl
    · subst heq
      cases tl with
      | nil => exact containsSeg_refl x
      | cons t ts =>
        exact ⟨[], sep ++ pyJoin sep (t :: ts), by simp [pyJoin, List.append_assoc]⟩
    · cases tl with
      | nil => cases htl
      | cons t ts =>
        simp only [pyJoin]
        exact containsSeg_append_left _ _ _ (ih htl)

/-- C9 (amended): the context block is built by concatenating, in
retrieval-rank order, each chunk's citation header followed by its content
truncated to the fixed 1000-character cap (short content is passed through
unchanged; long content is capped and marked with `...`, so a block's
content never exceeds 1003 characters); every occurrence of a chunk in the
input list — including duplicates — contributes its own block.  No
deduplication is performed. -/
theorem c9_format_documents_blocks (docs : List Doc) :
    (∀ (d : Doc) (rest : List Doc), formatDocuments (d :: rest)
        = docBlock d ++ (if rest.isEmpty then [] else ctxSep ++ formatDocuments rest)) ∧
    (∀ d ∈ docs, containsSeg (docBlock d) (formatDocuments docs)) ∧
    (∀ content : Txt, (truncateChunkContent content).length ≤ 1003) ∧
    (∀ content : Txt, content.length ≤ 1000 → truncateChunkContent content = content) := by
  refine ⟨?_, ?_, ?_, ?_⟩
  · intro d rest
    cases rest with
    | nil => simp [formatDocuments, pyJoin]
    | cons r rs => simp [formatDocuments, pyJoin, List.append_assoc]
  · intro d hd
    exact containsSeg_pyJoin ctxSep (docBlock d) (docs.map docBlock)
      (List.mem_map_of_mem docBlock hd)
  · intro content
    unfold truncateChunkContent
    by_cases h : 1000 < content.length <;>
      simp [h, List.length_append, List.length_take]
  · intro content h
    simp [truncateChunkContent, Nat.not_lt.2 h, List.take_of_length_le h]

/-- Witness for C9 (amended): a singleton retrieval list contains its
chunk's block, and short content is passed through untruncated. -/
theorem c9_witness :
    containsSeg (docBlock c9Doc) (formatDocuments [c9Doc]) ∧
    truncateChunkContent "abc".data = "abc".data :=
  ⟨(c9_format_documents_blocks [c9Doc]).2.1 c9Doc (by simp),
   (c9_format_documents_blocks []).2.2.2 "abc".data (by decide)⟩

theorem pyRfindFrom_spec (needle hay : Txt) :
    ∀ i : Nat,
      (pyRfindFrom needle hay i = -1 ∧
        ∀ j ≤ i, leadsWith needle (hay.drop j) = false) ∨
      (∃ k : Nat, pyRfindFrom needle hay i = (k : Int) ∧ k ≤ i ∧
        leadsWith needle (hay.drop k) = true ∧
        ∀ j ≤ i, k < j → leadsWith needle (hay.drop j) = false) := by
  intro i
  induction i with
  | zero =>
    cases h : leadsWith needle (hay.drop 0) with
    | false =>
      left
      refine ⟨by simpa [pyRfindFrom] using h, fun j hj => ?_⟩
      rw [Nat.le_zero.mp hj]
      exact h
    | true =>
      right
      exact ⟨0, by simpa [pyRfindFrom] using h, Nat.le_refl 0, h,
        fun j hj hlt => absurd (Nat.lt_of_lt_of_le hlt hj) (Nat.lt_irrefl 0)⟩
  | succ n ih =>
    cases h : leadsWith needle (hay.drop (n + 1)) with
    | true =>
      right
      exact ⟨n + 1, by simp [pyRfindFrom, h], Nat.le_refl _, h,
        fun j hj hlt => absurd (Nat.lt_of_lt_of_le hlt hj) (Nat.lt_irrefl _)⟩
    | false =>
      rcases ih with ⟨hneg, hall⟩ | ⟨k, hk, hkle, hklead, hkmax⟩
      · left
        refine ⟨by simp [pyRfindFrom, h, hneg], fun j hj => ?_⟩
        rcases Nat.lt_or_ge j (n + 1) with hlt | hge
        · exact hall j (Nat.lt_succ_iff.mp hlt)
        · rw [Nat.le_antisymm hj hge]
          exact h
      · right
        refine ⟨k, by simp [pyRfindFrom, h, hk], Nat.le_succ_of_le hkle, hklead,
          fun j hj hlt => ?_⟩
        rcases Nat.lt_or_ge j (n + 1) with hjlt | hjge
        · exact hkmax j (Nat.lt_succ_iff.mp hjlt) hlt
        · rw [Nat.le_antisymm hj hjge]
          exact h

theorem leadsWith_parBoundary_nil : leadsWith parBoundary [] = false := rfl

theorem pyRfind_spec (needle hay : Txt) (hn : needle ≠ []) :
    (pyRfind needle hay = -1 ∧ ∀ j : Nat, leadsWith needle (hay.drop j) = false) ∨
    (∃ k : Nat, pyRfind needle hay = (k : Int) ∧ k ≤ hay.length ∧
      leadsWith needle (hay.drop k) = true ∧
      ∀ j : Nat, k < j → leadsWith needle (hay.drop j) = false) := by
  have hout : ∀ j : Nat, hay.length < j → leadsWith needle (hay.drop j) = false := by
    intro j hj
    rw [List.drop_eq_nil_of_le (Nat.le_of_lt hj)]
    cases needle with
    | nil => exact absurd rfl hn
    | cons c cs => rfl
  rcases pyRfindFrom_spec needle hay hay.length with ⟨hneg, hall⟩ | ⟨k, hk, hkle, hklead, hkmax⟩
  · left
    refine ⟨hneg, fun j => ?_⟩
    rcases Nat.lt_or_ge hay.length j with hgt | hle
    · exact hout j hgt
    · exact hall j hle
  · right
    refine ⟨k, hk, hkle, hklead, fun j hlt => ?_⟩
    rcases Nat.lt_or_ge hay.length j with hgt | hle
    · exact hout j hgt
    · exact hkmax j hle hlt

/-- C8: the text substituted into the MAP summarization prompt is the
concatenation of the document's chunk texts truncated to the
10000-character budget; `_truncate_text` leaves within-budget text
unchanged, and over budget the result never exceeds the budget plus the
fixed truncation-marker suffix; the cut is made at the LAST paragraph
boundary of the truncated prefix when that boundary lies within the final
20% of the budget (`5*pos > 4*budget`), and hard at the budget otherwise. -/
theorem c8_map_input_truncation (genMap : String → Txt → Except String Txt)
    (documents : List Doc) (focus : String) (maxChars : Nat) (text : Txt)
    (hne : documents ≠ []) :
    (summarizeSinglePaper genMap documents focus).2
      = [(templateKeyOf focus,
          truncateText 10000 (pyJoin parBoundary (documents.map (fun d => d.pageContent))))] ∧
    (text.length ≤ maxChars → truncateText maxChars text = text) ∧
    (maxChars < text.length →
      (truncateText maxChars text).length ≤ maxChars + truncMarkerPar.length ∧
      (4 * (maxChars : Int) < 5 * pyRfind parBoundary (text.take maxChars) →
        ∃ k : Nat, pyRfind parBoundary (text.take maxChars) = (k : Int) ∧
          leadsWith parBoundary ((text.take maxChars).drop k) = true ∧
          (∀ j : Nat, k < j → leadsWith parBoundary ((text.take maxChars).drop j) = false) ∧
          truncateText maxChars text = (text.take maxChars).take k ++ truncMarkerPar) ∧
      (5 * pyRfind parBoundary (text.take maxChars) ≤ 4 * (maxChars : Int) →
        truncateText maxChars text = text.take maxChars ++ truncMarkerHard)) := by
  refine ⟨?_, ?_, ?_⟩
  · cases documents with
    | nil => exact absurd rfl hne
    | cons d rest =>
      simp only [summarizeSinglePaper]
      split
      · next h => exact absurd h (by simp)
      · split <;> rfl
  · intro hle
    simp [truncateText, hle]
  · intro hgt
    have hnle : ¬ text.length ≤ maxChars := by omega
    have htk : (text.take maxChars).length = maxChars := by
      rw [List.length_take]
      omega
    have ht : truncateText maxChars text
        = if 4 * (maxChars : Int) < 5 * pyRfind parBoundary (text.take maxChars) then
            (text.take maxChars).take (pyRfind parBoundary (text.take maxChars)).toNat
              ++ truncMarkerPar
          else text.take maxChars ++ truncMarkerHard := by
      simp [truncateText, hnle]
    refine ⟨?_, ?_, ?_⟩
    · rw [ht]
      by_cases hc : 4 * (maxChars : Int) < 5 * pyRfind parBoundary (text.take maxChars)
      · rw [if_pos hc, List.length_append, List.length_take, htk]
        have h24 : truncMarkerPar.length = 24 := by decide
        omega
      · rw [if_neg hc, List.length_append, htk]
        have h23 : truncMarkerHard.length = 23 := by decide
        have h24 : truncMarkerPar.length = 24 := by decide
        omega
    · intro hc
      rcases pyRfind_spec parBoundary (text.take maxChars) (by decide) with
        ⟨hneg, _⟩ | ⟨k, hk, _, hklead, hkmax⟩
      · rw [hneg] at hc
        omega
      · refine ⟨k, hk, hklead, hkmax, ?_⟩
        rw [ht, if_pos hc, hk]
        simp
    · intro hc
      rw [ht, if_neg (not_lt.mpr hc)]

/-- A 26-character text whose truncated-to-20 prefix has its last paragraph
boundary at position 17, inside the final 20% of the budget. -/
def c8Text : Txt := ("aaaaaaaaaaaaaaaaa" ++ "\n\n" ++ "bbbbbbb").data

/-- Witness for C8: a one-document MAP call logs exactly the truncated
concatenation; a budget-20 truncation of `c8Text` cuts at the paragraph
boundary (position 17); a budget-30 truncation returns the text unchanged. -/
theorem c8_witness :
    (summarizeSinglePaper (fun _ _ => .ok "s".data) [{ pageContent := "doc".data }]
        "completo").2 = [("completo", "doc".data)] ∧
    truncateText 20 c8Text = "aaaaaaaaaaaaaaaaa".data ++ truncMarkerPar ∧
    truncateText 30 c8Text = c8Text := by
  have h20 := c8_map_input_truncation (fun _ _ => .ok "s".data)
    [{ pageContent := "doc".data }] "completo" 20 c8Text (by simp)
  have h30 := c8_map_input_truncation (fun _ _ => .ok "s".data)
    [{ pageContent := "doc".data }] "completo" 30 c8Text (by simp)
  refine ⟨h20.1.trans (by decide), ?_, h30.2.1 (by decide)⟩
  obtain ⟨k, hk, hlead, hmax, heq⟩ := (h20.2.2 (by decide)).2.1 (by decide)
  have hp : pyRfind parBoundary (c8Text.take 20) = (17 : Int) := by decide
  have hk17 : k = 17 := by
    rw [hp] at hk
    omega
  subst hk17
  exact heq.trans (by decide)
